import Mathlib

/-!
Verification of the pantry-tracker backend proxy.

The repository is a small Express server that proxies CRUD calls for two
Grist tables (Locations, Food), relays attachment uploads, and forwards
AI requests to a microservice.  Three variants of the server file exist in
the repository: the top-level server.js, a variant with AI endpoints
(referred to below as the part 001 variant), and an older variant without
the records-wrapping helper (the part 002 variant).

This file gives a shallow embedding of the request-translation layer:
JSON values, the wrapRecords normalization helper, the outbound request
built by each route handler, the two-phase delete, the AI image-analysis
cleanup and parse pipeline, and the pantry-chat context rendering and
input validation.  Handlers are modeled as pure functions from the inbound
request data (and the outcomes of the outbound calls, supplied as
parameters) to the HTTP response or outbound request they produce.
-/

/-- JSON values.  Numbers are represented exactly as a decimal mantissa and
a power-of-ten exponent (value = m * 10 ^ e); all numeric literals relevant
here are integers with e = 0.  Objects are ordered association lists; the
inputs reaching the handlers come from a JSON parser, so keys are unique. -/
inductive Json where
  | null : Json
  | bool (b : Bool) : Json
  | num (m : Int) (e : Int) : Json
  | str (s : String) : Json
  | arr (xs : List Json) : Json
  | obj (fs : List (String × Json)) : Json

/-- An integer-valued JSON number. -/
def Json.int (n : Int) : Json := .num n 0

/-- JavaScript member access data[k] on a JSON value: a key lookup on an
object, and undefined (None) on arrays and primitives.  (Member access on
null or undefined would throw in JavaScript; the express json middleware
only delivers objects and arrays as top-level request bodies.) -/
def getMember (j : Json) (k : String) : Option Json :=
  match j with
  | .obj fs => fs.lookup k
  | _ => none

/-- The test Array.isArray(data.records) from the wrapRecords helper,
together with the extraction of the entries: Some entries when the value
has a member named records holding an array, None otherwise. -/
def recordsEntries (j : Json) : Option (List Json) :=
  match getMember j "records" with
  | some (.arr xs) => some xs
  | _ => none

/-- The wrapRecords helper (server.js lines 52-56, identical in the
part 001 variant lines 62-66):

  if (Array.isArray(data.records)) return data;
  if (Array.isArray(data)) return \x7b records: data.map(f => (\x7b fields: f \x7d)) \x7d;
  return \x7b records: [\x7b fields: data \x7d] \x7d;
-/
def wrapRecords (data : Json) : Json :=
  match recordsEntries data with
  | some _ => data
  | none =>
    match data with
    | .arr xs => .obj [("records", .arr (xs.map (fun f => .obj [("fields", f)])))]
    | _ => .obj [("records", .arr [.obj [("fields", data)]])]

/-- An outbound HTTP request to the Grist document service, reduced to the
parts the handlers control: method, URL path segments after the base URL,
and the JSON body (None when the request carries no body). -/
structure OutboundReq where
  method : String
  path : List String
  body : Option Json

/-- Path of the records endpoint of a table:
base/api/docs/docId/tables/table/records. -/
def recordsPath (docId table : String) : List String :=
  ["api", "docs", docId, "tables", table, "records"]

/-- The outbound request built by the record-creation handlers that use
wrapRecords: POST /locations and POST /food in server.js (lines 75-84 and
103-112) and POST /api/locations and POST /api/food in the part 001
variant (lines 85-94 and 113-122).  All four post wrapRecords(req.body) to
the records endpoint of the table. -/
def createRecordsReq (docId table : String) (reqBody : Json) : OutboundReq :=
  { method := "POST", path := recordsPath docId table, body := some (wrapRecords reqBody) }

/-- The outbound request built by the record-creation handlers of the
part 002 variant (POST /locations lines 60-68 and POST /food lines 84-92):
they post \x7b fields: req.body \x7d without any wrapping. -/
def part002CreateReq (docId table : String) (reqBody : Json) : OutboundReq :=
  { method := "POST", path := recordsPath docId table, body := some (.obj [("fields", reqBody)]) }

/-- The outbound request built by the update handler PATCH /food/:id in
server.js (lines 118-128) and PATCH /api/food/:id in the part 001 variant
(lines 128-138): a one-element bulk patch
\x7b records: [\x7b id: recordId, fields: req.body \x7d] \x7d sent to the records
endpoint of the Food table.  recordId is parseInt(req.params.id). -/
def updateFoodReq (docId : String) (recordId : Int) (reqBody : Json) : OutboundReq :=
  { method := "PATCH"
    path := recordsPath docId "Food"
    body := some (.obj [("records", .arr [.obj [("id", .int recordId), ("fields", reqBody)]])]) }

/-- The outbound request built by the update handler of the part 002
variant (PATCH /food/:id, lines 95-104): it patches the per-record URL
tables/Food/records/:id with body \x7b fields: req.body \x7d, where the raw
route parameter string is interpolated into the URL. -/
def part002UpdateFoodReq (docId idStr : String) (reqBody : Json) : OutboundReq :=
  { method := "PATCH"
    path := recordsPath docId "Food" ++ [idStr]
    body := some (.obj [("fields", reqBody)]) }

/-- An HTTP response sent back to the client: status code and JSON body. -/
structure HttpResp where
  status : Nat
  body : Json

/-- Response of the two-phase delete handler DELETE /food/:id in server.js
(lines 132-149) and DELETE /api/food/:id in the part 001 variant (lines
142-164).  Both awaits sit in one try block: a throw from either the
record-delete call or the attachment-cleanup call reaches the same catch,
which answers 500 with the error message; only when both calls succeed
does the handler answer 200 with
\x7b success: true, deletedId: recordId, attachmentsCleaned: true \x7d.
deleteOk and cleanupOk are the outcomes of the two upstream calls and
deleteErr, cleanupErr the corresponding thrown messages. -/
def deleteFoodResp (recordId : Int) (deleteOk cleanupOk : Bool)
    (deleteErr cleanupErr : String) : HttpResp :=
  if deleteOk = false then ⟨500, .obj [("error", .str deleteErr)]⟩
  else if cleanupOk = false then ⟨500, .obj [("error", .str cleanupErr)]⟩
  else ⟨200, .obj [("success", .bool true), ("deletedId", .int recordId),
                   ("attachmentsCleaned", .bool true)]⟩

/-- The outbound requests issued by the two-phase delete handler, in
order: first POST tables/Food/data/delete with the bare id array
[recordId], then, if that call did not throw, POST
attachments/removeUnused with an empty body. -/
def deleteFoodRequests (docId : String) (recordId : Int) (deleteOk : Bool) : List OutboundReq :=
  ⟨"POST", ["api", "docs", docId, "tables", "Food", "data", "delete"], some (.arr [.int recordId])⟩
  :: (if deleteOk then [⟨"POST", ["api", "docs", docId, "attachments", "removeUnused"], none⟩]
      else [])

/-- JavaScript whitespace for String.prototype.trim: space, tab, line and
form feeds, carriage return, vertical tab, no-break space, BOM, and the
line and paragraph separators. -/
def jsWsChars : List Char :=
  [' ', '\t', '\n', '\r', '\x0b', '\x0c', '\u00a0', '\ufeff', '\u2028', '\u2029']

/-- Membership in the JavaScript trim whitespace set. -/
def isJsWS (c : Char) : Bool := jsWsChars.contains c

/-- JavaScript String.prototype.trim on a character list: drop whitespace
from both ends. -/
def jsTrimList (cs : List Char) : List Char :=
  ((cs.dropWhile isJsWS).reverse.dropWhile isJsWS).reverse

/-- JavaScript String.prototype.startsWith: the first argument is the
searched prefix, the second the string. -/
def strStartsWith (p s : List Char) : Bool :=
  match p, s with
  | [], _ => true
  | _ :: _, [] => false
  | a :: ps, b :: ss => a == b && strStartsWith ps ss

/-- JavaScript String.prototype.includes: does the needle occur anywhere
in the haystack. -/
def strContains (hay needle : List Char) : Bool :=
  strStartsWith needle hay ||
  (match hay with
   | [] => false
   | _ :: t => strContains t needle)

/-- JavaScript String.prototype.substring: both indices are clamped to
[0, length] and swapped when given in decreasing order; the result is the
slice between them. -/
def jsSubstring (cs : List Char) (a b : Int) : List Char :=
  (cs.take (max (min (max a 0) (cs.length : Int)) (min (max b 0) (cs.length : Int))).toNat).drop
    (min (min (max a 0) (cs.length : Int)) (min (max b 0) (cs.length : Int))).toNat

/-- The string literal of seven characters used by the cleanup code in the
check jsonString.startsWith(three backticks followed by json). -/
def fenceJson : List Char := ['`', '`', '`', 'j', 's', 'o', 'n']

/-- The string literal of three backtick characters used by the cleanup
code in the check jsonString.startsWith(three backticks). -/
def fencePlain : List Char := ['`', '`', '`']

/-- The cleaning step of the image-analysis handler (part 001 variant,
lines 281-286):

  let jsonString = data.content.trim();
  if (jsonString.startsWith(backtick fence with json tag))
      jsonString = jsonString.substring(7, jsonString.length - 3).trim();
  else if (jsonString.startsWith(plain backtick fence))
      jsonString = jsonString.substring(3, jsonString.length - 3).trim();
-/
def cleanContent (cs : List Char) : List Char :=
  if strStartsWith fenceJson (jsTrimList cs) then
    jsTrimList
      (jsSubstring (jsTrimList cs) 7 (((jsTrimList cs).length : Int) - 3))
  else if strStartsWith fencePlain (jsTrimList cs) then
    jsTrimList
      (jsSubstring (jsTrimList cs) 3 (((jsTrimList cs).length : Int) - 3))
  else jsTrimList cs

/-- JSON insignificant whitespace between tokens. -/
def isJsonWS (c : Char) : Bool :=
  [' ', '\t', '\n', '\r'].contains c

/-- Skip insignificant whitespace. -/
def skipWs (cs : List Char) : List Char := cs.dropWhile isJsonWS

/-- Numeric value of a hexadecimal digit. -/
def hexVal (c : Char) : Option Nat :=
  match c.toNat with
  | n =>
    if 48 ≤ n ∧ n ≤ 57 then some (n - 48)
    else if 97 ≤ n ∧ n ≤ 102 then some (n - 87)
    else if 65 ≤ n ∧ n ≤ 70 then some (n - 55)
    else none

/-- Single-character JSON string escapes. -/
def escapeChar : Char → Option Char
  | '"' => some '"'
  | '\\' => some '\\'
  | '/' => some '/'
  | 'b' => some (Char.ofNat 8)
  | 'f' => some (Char.ofNat 12)
  | 'n' => some (Char.ofNat 10)
  | 'r' => some (Char.ofNat 13)
  | 't' => some (Char.ofNat 9)
  | _ => none

/-- Parse the body of a JSON string after the opening quote, returning the
decoded characters and the remainder after the closing quote. -/
def parseStringBody : List Char → Option (List Char × List Char)
  | [] => none
  | '"' :: rest => some ([], rest)
  | '\\' :: rest =>
    match rest with
    | 'u' :: h1 :: h2 :: h3 :: h4 :: rest2 => do
      let v1 ← hexVal h1
      let v2 ← hexVal h2
      let v3 ← hexVal h3
      let v4 ← hexVal h4
      let (acc, r) ← parseStringBody rest2
      some (Char.ofNat (((v1 * 16 + v2) * 16 + v3) * 16 + v4) :: acc, r)
    | e :: rest2 => do
      let c ← escapeChar e
      let (acc, r) ← parseStringBody rest2
      some (c :: acc, r)
    | [] => none
  | c :: rest =>
    if c.toNat < 0x20 then none
    else do
      let (acc, r) ← parseStringBody rest
      some (c :: acc, r)

/-- Value of a digit sequence read in base ten. -/
def digitsToNat (ds : List Char) : Nat :=
  ds.foldl (fun a c => a * 10 + (c.toNat - '0'.toNat)) 0

/-- Parse the integer digits of a JSON number (a single 0, or a nonzero
digit followed by digits; leading zeros are rejected). -/
def parseIntDigits : List Char → Option (List Char × List Char)
  | '0' :: rest =>
    match rest with
    | c :: _ => if c.isDigit then none else some (['0'], rest)
    | [] => some (['0'], [])
  | c :: rest =>
    if c.isDigit then some (c :: rest.takeWhile Char.isDigit, rest.dropWhile Char.isDigit)
    else none
  | [] => none

/-- Parse the optional fraction part of a JSON number, returning its
digits. -/
def parseFrac : List Char → Option (List Char × List Char)
  | '.' :: rest =>
    let ds := rest.takeWhile Char.isDigit
    if ds.isEmpty then none else some (ds, rest.dropWhile Char.isDigit)
  | cs => some ([], cs)

/-- Parse the optional exponent part of a JSON number, returning the
signed exponent. -/
def parseExp : List Char → Option (Int × List Char)
  | c :: rest =>
    if c == 'e' || c == 'E' then
      match rest with
      | '+' :: r =>
        let ds := r.takeWhile Char.isDigit
        if ds.isEmpty then none else some ((digitsToNat ds : Int), r.dropWhile Char.isDigit)
      | '-' :: r =>
        let ds := r.takeWhile Char.isDigit
        if ds.isEmpty then none else some (-(digitsToNat ds : Int), r.dropWhile Char.isDigit)
      | r =>
        let ds := r.takeWhile Char.isDigit
        if ds.isEmpty then none else some ((digitsToNat ds : Int), r.dropWhile Char.isDigit)
    else some (0, c :: rest)
  | [] => some (0, [])

/-- Parse a JSON number; the value is represented exactly as
mantissa * 10 ^ exponent. -/
def parseNumber (cs : List Char) : Option (Json × List Char) := do
  let (sign, cs1) : Int × List Char :=
    match cs with
    | '-' :: rest => (-1, rest)
    | _ => (1, cs)
  let (ids, cs2) ← parseIntDigits cs1
  let (fds, cs3) ← parseFrac cs2
  let (ex, cs4) ← parseExp cs3
  some (.num (sign * ((digitsToNat ids * 10 ^ fds.length + digitsToNat fds : Nat) : Int))
             (ex - fds.length), cs4)

mutual

/-- Parse one JSON value, returning it and the unconsumed remainder.  The
fuel argument bounds the recursion depth; the top-level entry point
supplies enough fuel for any input of the given length. -/
def parseValue : Nat → List Char → Option (Json × List Char)
  | 0, _ => none
  | fuel + 1, cs =>
    match skipWs cs with
    | 'n' :: 'u' :: 'l' :: 'l' :: rest => some (.null, rest)
    | 't' :: 'r' :: 'u' :: 'e' :: rest => some (.bool true, rest)
    | 'f' :: 'a' :: 'l' :: 's' :: 'e' :: rest => some (.bool false, rest)
    | '"' :: rest => do
      let (s, r) ← parseStringBody rest
      some (.str ⟨s⟩, r)
    | '[' :: rest =>
      (match skipWs rest with
       | ']' :: r => some (.arr [], r)
       | cs2 => do
         let (vs, r) ← parseElems fuel cs2
         some (.arr vs, r))
    | '{' :: rest =>
      (match skipWs rest with
       | '}' :: r => some (.obj [], r)
       | cs2 => do
         let (ms, r) ← parseMembers fuel cs2
         some (.obj ms, r))
    | cs2 => parseNumber cs2

/-- Parse the nonempty comma-separated element list of a JSON array,
including the closing bracket. -/
def parseElems : Nat → List Char → Option (List Json × List Char)
  | 0, _ => none
  | fuel + 1, cs => do
    let (v, r) ← parseValue fuel cs
    match skipWs r with
    | ',' :: r2 => do
      let (vs, r3) ← parseElems fuel r2
      some (v :: vs, r3)
    | ']' :: r2 => some ([v], r2)
    | _ => none

/-- Parse the nonempty comma-separated member list of a JSON object,
including the closing brace. -/
def parseMembers : Nat → List Char → Option (List (String × Json) × List Char)
  | 0, _ => none
  | fuel + 1, cs =>
    match skipWs cs with
    | '"' :: r => do
      let (k, r2) ← parseStringBody r
      match skipWs r2 with
      | ':' :: r3 => do
        let (v, r4) ← parseValue fuel r3
        match skipWs r4 with
        | ',' :: r5 => do
          let (ms, r6) ← parseMembers fuel r5
          some ((⟨k⟩, v) :: ms, r6)
        | '}' :: r5 => some ([(⟨k⟩, v)], r5)
        | _ => none
      | _ => none
    | _ => none

end

/-- JSON.parse: parse one JSON text, requiring that only whitespace
follows the value. -/
def jsonParse (cs : List Char) : Option Json :=
  match parseValue (2 * cs.length + 2) cs with
  | some (v, r) => if (skipWs r).isEmpty then some v else none
  | none => none

/-- The image-analysis handler POST /api/analyzeImage (part 001 variant,
lines 209-298), modeled from the request validation onward.  hasImage is
whether multer delivered a file.  The upstream parameter folds together
the microservice call and the read of its JSON body: ok content when the
call succeeded and the body carried the string field named content, and
error otherwise (transport failure, non-ok status, unreadable body, or a
missing content field, all of which throw inside the try block).  Every
throw reaches the catch, which answers 500 with the fixed message; a
successful parse of the cleaned content is answered verbatim with 200. -/
def analyzeImage (hasImage : Bool) (upstream : Except String String) : HttpResp :=
  if hasImage = false then ⟨400, .obj [("error", .str "No image provided")]⟩
  else
    match upstream with
    | .error _ => ⟨500, .obj [("error", .str "Failed to analyze image")]⟩
    | .ok content =>
      match jsonParse (cleanContent content.data) with
      | some aiJson => ⟨200, aiJson⟩
      | none => ⟨500, .obj [("error", .str "Failed to analyze image")]⟩

/-- Day of week of a day index counted from the Unix epoch, 0 = Sunday
(the epoch day, 1970-01-01, was a Thursday). -/
def weekdayOfDays (z : Int) : Nat := ((z + 4).emod 7).toNat

/-- Civil date (year, month, day) of a day index counted from the Unix
epoch, proleptic Gregorian calendar. -/
def civilFromDays (z : Int) : Int × Nat × Nat :=
  let zShift := z + 719468
  let era := zShift.fdiv 146097
  let doe := (zShift - era * 146097).toNat
  let yoe := (doe - doe / 1460 + doe / 36524 - doe / 146096) / 365
  let doy := doe - (365 * yoe + yoe / 4 - yoe / 100)
  let mp := (5 * doy + 2) / 153
  let d := doy - (153 * mp + 2) / 5 + 1
  let m := if mp < 10 then mp + 3 else mp - 9
  ((yoe : Int) + era * 400 + (if m ≤ 2 then 1 else 0), m, d)

/-- Three-letter English weekday names used by Date.prototype.toDateString. -/
def weekdayName (w : Nat) : String :=
  (["Sun", "Mon", "Tue", "Wed", "Thu", "Fri", "Sat"].getD w "")

/-- Three-letter English month names used by Date.prototype.toDateString. -/
def monthName (m : Nat) : String :=
  (["Jan", "Feb", "Mar", "Apr", "May", "Jun", "Jul", "Aug", "Sep", "Oct", "Nov",
    "Dec"].getD (m - 1) "")

/-- Zero-padded two-digit day number. -/
def pad2 (n : Nat) : String := if n < 10 then "0" ++ toString n else toString n

/-- Date.prototype.toDateString of new Date(sec * 1000), evaluated in the
UTC timezone (the deployment container of the repository runs with the
node default timezone, UTC): weekday, month, zero-padded day and year. -/
def jsToDateStringUTC (sec : Int) : String :=
  let days := sec.fdiv 86400
  let (y, m, d) := civilFromDays days
  weekdayName (weekdayOfDays days) ++ " " ++ monthName m ++ " " ++ pad2 d ++ " " ++ toString y

/-- One pantry item as destructured by the pantry-chat handler: fields
Name, Quantity and Expiration (a Unix timestamp in seconds).  Quantity is
modeled as an integer, the form the front end sends. -/
structure PantryItem where
  Name : String
  Quantity : Int
  Expiration : Int

/-- One line of the pantry context block (part 001 variant, line 309):
name, quantity and the calendar date of the expiration timestamp. -/
def pantryItemLine (i : PantryItem) : String :=
  i.Name ++ " (x" ++ toString i.Quantity ++ ") expiring on " ++ jsToDateStringUTC i.Expiration

/-- The context block of the pantry-chat handler (part 001 variant, lines
308-310): the item lines joined with newlines. -/
def buildPantryContext (items : List PantryItem) : String :=
  String.intercalate "\n" (items.map pantryItemLine)

/-- The AI configuration read from the environment at startup: provider
tag, chat model identifier, and the apiKey and modelUrl values placed in
the payload (each already reduced to a JSON value by the expressions
AI_API_KEY or null and AI_API_BASE or null). -/
structure AiConfig where
  provider : String
  chatModel : String
  apiKey : Json
  modelUrl : Json

/-- The payload built by the pantry-chat handler (part 001 variant, lines
313-329): a streaming chat request whose system message embeds the pantry
context block and whose user message is the inbound message. -/
def pantryChatPayload (cfg : AiConfig) (items : List PantryItem) (message : String) : Json :=
  .obj [("providerType", .str cfg.provider),
        ("model", .str cfg.chatModel),
        ("messages", .arr [
          .obj [("role", .str "system"),
                ("content",
                 .str ("You are a helpful pantry assistant. Pantry contents:\n"
                       ++ buildPantryContext items))],
          .obj [("role", .str "user"), ("content", .str message)]]),
        ("stream", .bool true),
        ("apiKey", cfg.apiKey),
        ("modelUrl", cfg.modelUrl),
        ("think", .bool true),
        ("temperature", .num 7 (-1)),
        ("maxTokens", .int 4000)]

/-- Result of the request phase of the pantry-chat handler: either an
immediate JSON response, or the outbound microservice call carrying the
built payload (whose streamed response is then piped back verbatim; the
relay itself is outside this model). -/
inductive PantryChatResult where
  | response (status : Nat) (body : Json)
  | upstreamCall (payload : Json)

/-- JavaScript truthiness of the destructured items value: undefined and
null are falsy, any array (including the empty array) is truthy. -/
def itemsFalsy : Option (List PantryItem) → Bool
  | none => true
  | some _ => false

/-- JavaScript truthiness of the destructured message value: undefined,
null and the empty string are falsy, every other string is truthy. -/
def messageFalsy : Option String → Bool
  | none => true
  | some s => s == ""

/-- The request phase of the pantry-chat handler POST /api/pantryChat
(part 001 variant, lines 301-341): reject with
400 \x7b error: "Missing items or message" \x7d when items or message is falsy
(the check if (!items or !message)), otherwise build the payload and call
the microservice.  In the accepting branch items and message are known to
be present, so the defaults supplied by getD are never used. -/
def pantryChat (cfg : AiConfig) (items : Option (List PantryItem))
    (message : Option String) : PantryChatResult :=
  if itemsFalsy items || messageFalsy message then
    .response 400 (.obj [("error", .str "Missing items or message")])
  else
    .upstreamCall (pantryChatPayload cfg (items.getD []) (message.getD ""))

theorem wrapRecords_of_wrapped (j : Json) (xs : List Json)
    (h : recordsEntries j = some xs) : wrapRecords j = j := by
  unfold wrapRecords
  rw [h]

theorem recordsEntries_wrapRecords (d : Json) :
    ∃ xs, recordsEntries (wrapRecords d) = some xs := by
  unfold wrapRecords
  cases h : recordsEntries d with
  | some xs => exact ⟨xs, h⟩
  | none =>
    cases d with
    | null => exact ⟨_, rfl⟩
    | bool b => exact ⟨_, rfl⟩
    | num m e => exact ⟨_, rfl⟩
    | str s => exact ⟨_, rfl⟩
    | arr xs => exact ⟨_, rfl⟩
    | obj fs => exact ⟨_, rfl⟩

/-- C9: the record-wrapping normalization is idempotent.  The output of
wrapRecords always carries a records array, and running wrapRecords on its
own output returns it unchanged, so an already-wrapped records array is
never double-wrapped. -/
theorem wrapRecords_idempotent :
    (∀ d, ∃ xs, recordsEntries (wrapRecords d) = some xs)
  ∧ (∀ d, wrapRecords (wrapRecords d) = wrapRecords d) := by
  refine ⟨recordsEntries_wrapRecords, fun d => ?_⟩
  obtain ⟨xs, h⟩ := recordsEntries_wrapRecords d
  exact wrapRecords_of_wrapped _ xs h

/-- C1 counterexample: in the part 002 variant, creating a record from the
bare field map with Name Bananas forwards the body with a fields wrapper
and no records array at all, so the body forwarded to the document service
is not of the records-wrapped shape the claim requires for every
record-creation input. -/
theorem part002_create_not_wrapped :
    (part002CreateReq "doc1" "Food" (.obj [("Name", .str "Bananas")])).body
      = some (.obj [("fields", .obj [("Name", .str "Bananas")])])
  ∧ recordsEntries (.obj [("fields", .obj [("Name", .str "Bananas")])]) = none :=
  ⟨rfl, rfl⟩

/-- C1 (amended): for the record-creation handlers that use wrapRecords
(both tables of server.js and of the part 001 variant), the forwarded body
is records-wrapped with exactly one entry per logical input record: a bare
field map yields one entry, an array of field maps yields one entry per
element, and a pre-wrapped records array is forwarded unchanged.  The
part 002 variant forwards \x7b fields: body \x7d without wrapping instead. -/
theorem createRecordsReq_normalizes :
    (∀ docId table fs, recordsEntries (.obj fs) = none →
      (createRecordsReq docId table (.obj fs)).body
        = some (.obj [("records", .arr [.obj [("fields", .obj fs)]])]))
  ∧ (∀ docId table xs,
      (createRecordsReq docId table (.arr xs)).body
        = some (.obj [("records", .arr (xs.map (fun f => .obj [("fields", f)])))])
      ∧ (xs.map (fun f => Json.obj [("fields", f)])).length = xs.length)
  ∧ (∀ docId table (j : Json) rs, recordsEntries j = some rs →
      (createRecordsReq docId table j).body = some j) := by
  refine ⟨fun docId table fs h => ?_, fun docId table xs => ⟨?_, by simp⟩,
          fun docId table j rs h => ?_⟩
  · show some (wrapRecords (.obj fs)) = _
    unfold wrapRecords
    rw [h]
  · show some (wrapRecords (.arr xs)) = _
    rfl
  · show some (wrapRecords j) = _
    rw [wrapRecords_of_wrapped j rs h]

theorem createRecordsReq_normalizes_witness :
    ((createRecordsReq "doc1" "Food" (.obj [("Name", .str "Bananas")])).body
      = some (.obj [("records", .arr [.obj [("fields", .obj [("Name", .str "Bananas")])]])]))
  ∧ ((createRecordsReq "doc1" "Food" (.obj [("records", .arr [])])).body
      = some (.obj [("records", .arr [])])) :=
  ⟨createRecordsReq_normalizes.1 "doc1" "Food" [("Name", .str "Bananas")] rfl,
   createRecordsReq_normalizes.2.2 "doc1" "Food" (.obj [("records", .arr [])]) [] rfl⟩

/-- C3 counterexample: the update handler of the part 002 variant sends
the patch for record 7 to the per-record endpoint
tables/Food/records/7 (not the bulk records endpoint), and its body is a
bare fields wrapper with no records array, refuting the claim that every
update is expressed as a one-element bulk patch. -/
theorem part002_update_uses_per_id_endpoint :
    (part002UpdateFoodReq "doc1" "7" (.obj [("Quantity", .int 12)])).path
      = recordsPath "doc1" "Food" ++ ["7"]
  ∧ (part002UpdateFoodReq "doc1" "7" (.obj [("Quantity", .int 12)])).path
      ≠ recordsPath "doc1" "Food"
  ∧ (part002UpdateFoodReq "doc1" "7" (.obj [("Quantity", .int 12)])).body
      = some (.obj [("fields", .obj [("Quantity", .int 12)])]) :=
  ⟨rfl, by decide, rfl⟩

/-- C3 (amended): in server.js and the part 001 variant, every update of a
Food record is sent as a PATCH of the bulk records endpoint of the table
whose body wraps exactly the one-element records array
[\x7b id, fields \x7d]; the part 002 variant instead patches a distinct
per-record endpoint. -/
theorem updateFoodReq_is_single_bulk_patch :
    ∀ docId recordId fields,
      (updateFoodReq docId recordId fields).method = "PATCH"
    ∧ (updateFoodReq docId recordId fields).path = recordsPath docId "Food"
    ∧ recordsEntries (((updateFoodReq docId recordId fields).body).getD .null)
        = some [.obj [("id", .int recordId), ("fields", fields)]] :=
  fun _ _ _ => ⟨rfl, rfl, rfl⟩

/-- C2 counterexample: deleting record 7 when the upstream delete succeeds
but the attachment cleanup call fails produces a 500 whose body carries
only the error message: it reports neither success nor
attachmentsCleaned false, refuting the claim. -/
theorem deleteFood_cleanup_failure_is_500 :
    deleteFoodResp 7 true false "x" "cleanup failed"
      = ⟨500, .obj [("error", .str "cleanup failed")]⟩
  ∧ getMember (deleteFoodResp 7 true false "x" "cleanup failed").body "attachmentsCleaned"
      = none
  ∧ getMember (deleteFoodResp 7 true false "x" "cleanup failed").body "success" = none :=
  ⟨rfl, rfl, rfl⟩

/-- C2 (amended): both phases of the delete handler share one try block,
so when the record delete succeeds but the cleanup call fails the handler
answers 500 with the error message; no response of the handler ever
carries attachmentsCleaned false (the member is absent from error bodies
and true on the success body). -/
theorem deleteFood_cleanup_failure_behavior :
    (∀ recordId dErr cErr,
      deleteFoodResp recordId true false dErr cErr = ⟨500, .obj [("error", .str cErr)]⟩)
  ∧ (∀ recordId dOk cOk dErr cErr,
      getMember (deleteFoodResp recordId dOk cOk dErr cErr).body "attachmentsCleaned" = none
    ∨ getMember (deleteFoodResp recordId dOk cOk dErr cErr).body "attachmentsCleaned"
        = some (.bool true)) := by
  refine ⟨fun _ _ _ => rfl, fun recordId dOk cOk dErr cErr => ?_⟩
  cases dOk with
  | false => exact Or.inl rfl
  | true =>
    cases cOk with
    | false => exact Or.inl rfl
    | true => exact Or.inr rfl

/-- C7: when both upstream calls of the two-phase delete succeed, the
response is 200 with body
\x7b success: true, deletedId: recordId, attachmentsCleaned: true \x7d (so for
id 7, deletedId is 7), and the handler issued exactly the record-delete
request followed by the attachment-cleanup request. -/
theorem deleteFood_success_response :
    ∀ docId recordId dErr cErr,
      deleteFoodResp recordId true true dErr cErr
        = ⟨200, .obj [("success", .bool true), ("deletedId", .int recordId),
                      ("attachmentsCleaned", .bool true)]⟩
    ∧ deleteFoodResp 7 true true dErr cErr
        = ⟨200, .obj [("success", .bool true), ("deletedId", .int 7),
                      ("attachmentsCleaned", .bool true)]⟩
    ∧ deleteFoodRequests docId recordId true
        = [⟨"POST", ["api", "docs", docId, "tables", "Food", "data", "delete"],
            some (.arr [.int recordId])⟩,
           ⟨"POST", ["api", "docs", docId, "attachments", "removeUnused"], none⟩] :=
  fun _ _ _ _ => ⟨rfl, rfl, rfl⟩

theorem strStartsWith_app (p r : List Char) : strStartsWith p (p ++ r) = true := by
  induction p with
  | nil => rfl
  | cons a ps ih => simp [strStartsWith, ih]

theorem strStartsWith_shift (l p s : List Char) :
    strStartsWith (l ++ p) (l ++ s) = strStartsWith p s := by
  induction l with
  | nil => rfl
  | cons a ls ih => simp [strStartsWith, ih]

theorem take_drop_mid (A mid B : List Char) :
    ((A ++ (mid ++ B)).take (A.length + mid.length)).drop A.length = mid := by
  rw [← List.append_assoc, ← List.length_append, List.take_left, List.drop_left]

theorem jsTrimList_fenceJson (t : List Char) :
    jsTrimList (fenceJson ++ (t ++ fencePlain)) = fenceJson ++ (t ++ fencePlain) := by
  have h1 : (fenceJson ++ (t ++ fencePlain)).dropWhile isJsWS
      = fenceJson ++ (t ++ fencePlain) := by
    rw [show fenceJson ++ (t ++ fencePlain)
          = '`' :: (['`', '`', 'j', 's', 'o', 'n'] ++ (t ++ fencePlain)) from rfl,
        List.dropWhile_cons]
    simp [show isJsWS '`' = false from rfl]
  have h2 : (fenceJson ++ (t ++ fencePlain)).reverse.dropWhile isJsWS
      = (fenceJson ++ (t ++ fencePlain)).reverse := by
    rw [List.reverse_append, List.reverse_append]
    rw [show fencePlain.reverse ++ t.reverse ++ fenceJson.reverse
          = '`' :: (['`', '`'] ++ t.reverse ++ fenceJson.reverse) from rfl,
        List.dropWhile_cons]
    simp [show isJsWS '`' = false from rfl]
  unfold jsTrimList
  rw [h1, h2, List.reverse_reverse]

theorem jsSubstring_fenceJson (t : List Char) :
    jsSubstring (fenceJson ++ (t ++ fencePlain)) 7
      (((fenceJson ++ (t ++ fencePlain)).length : Int) - 3) = t := by
  have hlen : ((fenceJson ++ (t ++ fencePlain)).length : Int) = (t.length : Int) + 10 := by
    simp [fenceJson, fencePlain, List.length_append]
    omega
  unfold jsSubstring
  rw [hlen]
  have h1 : (max (min (max (7 : Int) 0) ((t.length : Int) + 10))
      (min (max ((t.length : Int) + 10 - 3) 0) ((t.length : Int) + 10))).toNat
      = 7 + t.length := by omega
  have h2 : (min (min (max (7 : Int) 0) ((t.length : Int) + 10))
      (min (max ((t.length : Int) + 10 - 3) 0) ((t.length : Int) + 10))).toNat
      = 7 := by omega
  rw [h1, h2]
  exact take_drop_mid fenceJson t fencePlain

theorem cleanContent_fenceJson (t : List Char) :
    cleanContent (fenceJson ++ (t ++ fencePlain)) = jsTrimList t := by
  unfold cleanContent
  rw [jsTrimList_fenceJson, strStartsWith_app fenceJson (t ++ fencePlain)]
  rw [if_pos rfl, jsSubstring_fenceJson]

theorem jsTrimList_fencePlain (t : List Char) :
    jsTrimList (fencePlain ++ (t ++ fencePlain)) = fencePlain ++ (t ++ fencePlain) := by
  have h1 : (fencePlain ++ (t ++ fencePlain)).dropWhile isJsWS
      = fencePlain ++ (t ++ fencePlain) := by
    rw [show fencePlain ++ (t ++ fencePlain)
          = '`' :: (['`', '`'] ++ (t ++ fencePlain)) from rfl,
        List.dropWhile_cons]
    simp [show isJsWS '`' = false from rfl]
  have h2 : (fencePlain ++ (t ++ fencePlain)).reverse.dropWhile isJsWS
      = (fencePlain ++ (t ++ fencePlain)).reverse := by
    rw [List.reverse_append, List.reverse_append]
    rw [show fencePlain.reverse ++ t.reverse ++ fencePlain.reverse
          = '`' :: (['`', '`'] ++ t.reverse ++ fencePlain.reverse) from rfl,
        List.dropWhile_cons]
    simp [show isJsWS '`' = false from rfl]
  unfold jsTrimList
  rw [h1, h2, List.reverse_reverse]

theorem jsSubstring_fencePlain (t : List Char) :
    jsSubstring (fencePlain ++ (t ++ fencePlain)) 3
      (((fencePlain ++ (t ++ fencePlain)).length : Int) - 3) = t := by
  have hlen : ((fencePlain ++ (t ++ fencePlain)).length : Int) = (t.length : Int) + 6 := by
    simp [fencePlain, List.length_append]
    omega
  unfold jsSubstring
  rw [hlen]
  have h1 : (max (min (max (3 : Int) 0) ((t.length : Int) + 6))
      (min (max ((t.length : Int) + 6 - 3) 0) ((t.length : Int) + 6))).toNat
      = 3 + t.length := by omega
  have h2 : (min (min (max (3 : Int) 0) ((t.length : Int) + 6))
      (min (max ((t.length : Int) + 6 - 3) 0) ((t.length : Int) + 6))).toNat
      = 3 := by omega
  rw [h1, h2]
  exact take_drop_mid fencePlain t fencePlain

theorem cleanContent_fencePlain (t : List Char)
    (h : strStartsWith ['j', 's', 'o', 'n'] (t ++ fencePlain) = false) :
    cleanContent (fencePlain ++ (t ++ fencePlain)) = jsTrimList t := by
  unfold cleanContent
  rw [jsTrimList_fencePlain]
  rw [show fenceJson = fencePlain ++ ['j', 's', 'o', 'n'] from rfl, strStartsWith_shift, h]
  rw [if_neg (by simp), strStartsWith_app fencePlain (t ++ fencePlain), if_pos rfl,
      jsSubstring_fencePlain]

/-- C5: given the microservice content consisting of the Apple JSON inside
a json code fence, the image-analysis handler answers 200 with the parsed
object (item Apple, expiration days 7, notes null), fences stripped.  In
general, a content of the form json-tagged fence, inner text, closing
fence has the fence markers removed and the remainder trimmed before the
JSON parse; the same holds for a plain backtick fence provided the inner
text does not itself begin with the json tag (in which case the json
branch fires first). -/
theorem analyzeImage_fence_stripping :
    analyzeImage true
        (.ok "```json\n\x7b\"item\":\"Apple\",\"expiration_days\":7,\"notes\":null\x7d\n```")
      = ⟨200, .obj [("item", .str "Apple"), ("expiration_days", .int 7), ("notes", .null)]⟩
  ∧ (∀ t : List Char, cleanContent (fenceJson ++ (t ++ fencePlain)) = jsTrimList t)
  ∧ (∀ t : List Char, strStartsWith ['j', 's', 'o', 'n'] (t ++ fencePlain) = false →
      cleanContent (fencePlain ++ (t ++ fencePlain)) = jsTrimList t) :=
  ⟨rfl, cleanContent_fenceJson, cleanContent_fencePlain⟩

theorem analyzeImage_fence_stripping_witness :
    cleanContent (fencePlain ++ ("\x7b\x7d".data ++ fencePlain)) = jsTrimList "\x7b\x7d".data :=
  analyzeImage_fence_stripping.2.2 "\x7b\x7d".data rfl

/-- C6 counterexample: a microservice content that is syntactically valid
JSON but lacks every required AnalysisResult field (the empty object) is
answered with 200 and the object itself, not with a 500: the handler
performs no required-field validation after JSON.parse. -/
theorem analyzeImage_missing_fields_not_500 :
    analyzeImage true (.ok "\x7b\x7d") = ⟨200, .obj []⟩ := rfl

/-- C6 (amended): an upstream error, and a content whose cleaned text does
not parse as JSON, are both answered 500 with the fixed message Failed to
analyze image; a content that parses is answered 200 with exactly the
fully parsed object (JSON.parse is all-or-nothing, so no partially parsed
object is ever returned); but a parsed object is forwarded without any
required-field check, so missing AnalysisResult fields do not produce a
500. -/
theorem analyzeImage_error_behavior :
    (∀ e, analyzeImage true (.error e)
        = ⟨500, .obj [("error", .str "Failed to analyze image")]⟩)
  ∧ (∀ content : String, jsonParse (cleanContent content.data) = none →
      analyzeImage true (.ok content)
        = ⟨500, .obj [("error", .str "Failed to analyze image")]⟩)
  ∧ (∀ (content : String) (j : Json), jsonParse (cleanContent content.data) = some j →
      analyzeImage true (.ok content) = ⟨200, j⟩) := by
  refine ⟨fun e => rfl, fun content h => ?_, fun content j h => ?_⟩
  · show (match jsonParse (cleanContent content.data) with
          | some aiJson => ({ status := 200, body := aiJson } : HttpResp)
          | none => ⟨500, .obj [("error", .str "Failed to analyze image")]⟩) = _
    rw [h]
  · show (match jsonParse (cleanContent content.data) with
          | some aiJson => ({ status := 200, body := aiJson } : HttpResp)
          | none => ⟨500, .obj [("error", .str "Failed to analyze image")]⟩) = _
    rw [h]

theorem analyzeImage_error_behavior_witness :
    analyzeImage true (.error "boom") = ⟨500, .obj [("error", .str "Failed to analyze image")]⟩
  ∧ analyzeImage true (.ok "not json") = ⟨500, .obj [("error", .str "Failed to analyze image")]⟩
  ∧ analyzeImage true (.ok "\x7b\"item\":\"Apple\"\x7d") = ⟨200, .obj [("item", .str "Apple")]⟩ :=
  ⟨analyzeImage_error_behavior.1 "boom",
   analyzeImage_error_behavior.2.1 "not json" rfl,
   analyzeImage_error_behavior.2.2 "\x7b\"item\":\"Apple\"\x7d" (.obj [("item", .str "Apple")]) rfl⟩

/-- C8: with the single pantry item Milk, quantity 1, expiration timestamp
1700000000, the rendered context block is the literal
"Milk (x1) expiring on " followed by the calendar date of the timestamp
(Tue Nov 14 2023 in the UTC timezone of the deployment container), and the
system message of the built chat payload embeds that block, so it contains
the literal substring "Milk (x1) expiring on".  Each item renders to
exactly one such line; lines are joined with newlines. -/
theorem pantryChat_context_rendering :
    buildPantryContext [⟨"Milk", 1, 1700000000⟩]
      = "Milk (x1) expiring on " ++ jsToDateStringUTC 1700000000
  ∧ jsToDateStringUTC 1700000000 = "Tue Nov 14 2023"
  ∧ (∀ (cfg : AiConfig) (message : String),
      getMember (pantryChatPayload cfg [⟨"Milk", 1, 1700000000⟩] message) "messages"
        = some (.arr [
            .obj [("role", .str "system"),
                  ("content",
                   .str "You are a helpful pantry assistant. Pantry contents:\nMilk (x1) expiring on Tue Nov 14 2023")],
            .obj [("role", .str "user"), ("content", .str message)]]))
  ∧ strContains
      "You are a helpful pantry assistant. Pantry contents:\nMilk (x1) expiring on Tue Nov 14 2023".data
      "Milk (x1) expiring on".data = true
  ∧ (∀ i : PantryItem, pantryItemLine i
      = i.Name ++ " (x" ++ toString i.Quantity ++ ") expiring on "
        ++ jsToDateStringUTC i.Expiration) := by
  refine ⟨by decide, by decide, fun cfg message => rfl, by decide, fun i => rfl⟩

/-- C10: the pantry-chat request phase answers 400 with error message
"Missing items or message" exactly when items is absent or null, or
message is absent, null or the empty string; the empty items array is
truthy and therefore accepted, rendering the empty context block and
proceeding to the upstream call, while the empty-string message is falsy
and rejected. -/
theorem pantryChat_validation :
    (∀ cfg items message,
       pantryChat cfg items message
          = .response 400 (.obj [("error", .str "Missing items or message")])
        ↔ (items = none ∨ message = none ∨ message = some ""))
  ∧ (∀ cfg, pantryChat cfg (some []) (some "What can I make?")
      = .upstreamCall (pantryChatPayload cfg [] "What can I make?"))
  ∧ buildPantryContext [] = "" := by
  refine ⟨fun cfg items message => ?_, fun cfg => rfl, rfl⟩
  cases items with
  | none => simp [pantryChat, itemsFalsy, messageFalsy]
  | some l =>
    cases message with
    | none => simp [pantryChat, itemsFalsy, messageFalsy]
    | some s =>
      by_cases hs : s = ""
      · subst hs
        simp [pantryChat, itemsFalsy, messageFalsy]
      · simp [pantryChat, itemsFalsy, messageFalsy, hs]
